import Mathlib

set_option linter.unusedVariables false

/- Shallow embedding of src/adlframework/datasource.py (class DataSource).

   The repository is Python 2 code: line 7 uses an implicit relative import
   (from datasource_union import DataSourceUnion), and lines 133 and 209 call
   len() on the result of filter(...), which is a list in Python 2. Hence
   filter(...) materializes a list and is embedded as List.filter.

   Python values flowing through the sample pipeline are modelled by PyVal:
   booleans, machine-precision-free integers, 2-tuples (samples are
   (data, label) pairs) and None. Python == is modelled by pyEq, under which
   True == 1 and False == 0 hold, exactly as in Python; Python truthiness is
   modelled by pyTruthy.

   Fallible Python code is embedded with Except String; the string names the
   exception that the Python code raises at that point.

   External collaborators are embedded as inputs: the psutil memory reading of
   line 189-190, mem.percent/100.0, is an environment value, so the embedding
   takes an oracle mem_frac : Nat -> Rat giving the fraction of memory in use
   observed at the k-th loop iteration; random.shuffle is an environment
   permutation sigma. numpy conversion (convert_batch_to_np) maps a sequence
   to a dense array of the same length and is not modelled beyond the flag. -/

inductive PyVal where
  | bool (b : Bool)
  | int (n : Int)
  | pair (a b : PyVal)
  | none
deriving DecidableEq

/-- Python equality (==) restricted to the value domain above. Python treats
bool as a numeric type, so True == 1 and False == 0; tuples compare
componentwise; values of different non-numeric types compare unequal. -/
def pyEq : PyVal → PyVal → Bool
  | .bool a, .bool b => a == b
  | .bool a, .int n => (if a then (1 : Int) else 0) == n
  | .int n, .bool a => n == (if a then (1 : Int) else 0)
  | .int m, .int n => m == n
  | .pair a b, .pair c d => pyEq a c && pyEq b d
  | .none, .none => true
  | _, _ => false

/-- Python truthiness (bool(x)): False, 0 and None are falsy; a 2-tuple is
always truthy. -/
def pyTruthy : PyVal → Bool
  | .bool b => b
  | .int n => n != 0
  | .pair _ _ => true
  | .none => false

def PyVal.isPair : PyVal → Bool
  | .pair _ _ => true
  | _ => false

def pyFst : PyVal → PyVal
  | .pair a _ => a
  | _ => .none

def pySnd : PyVal → PyVal
  | .pair _ b => b
  | _ => .none

deriving instance DecidableEq for Except

/- An Entity (external collaborator, spec section 6) exposes unique_id, a
   get_sample() method, and an evictable raw-data attribute: `sample` is the
   result get_sample() produces (.error when it raises) and `data` is the
   cached raw-data field, Option.none when the attribute is absent. -/
structure Entity where
  unique_id : Int
  sample : Except String PyVal
  data : Option PyVal
deriving DecidableEq

/-- A controller is a callable on samples that may raise
(datasource.py line 149). -/
abbrev Ctrl := PyVal → Except String PyVal

/-- DataSource.process_sample, datasource.py lines 140-153:
for controller in self.controllers:
    tmp = controller(sample)
    sample = sample if tmp == True else tmp
    if sample == False: return False
return sample -/
def process_sample (controllers : List Ctrl) (sample : PyVal) : Except String PyVal :=
  match controllers with
  | [] => .ok sample
  | c :: rest =>
    match c sample with
    | .error e => .error e
    | .ok tmp =>
      let sample' := if pyEq tmp (.bool true) then sample else tmp
      if pyEq sample' (.bool false) then .ok (.bool false)
      else process_sample rest sample'

/-- The body of the try-block of DataSource.next, lines 169-179: materialize
the sample, run the controller chain, append to the batch only if the result
is truthy; any exception is caught and the batch is left unchanged. -/
def stepBatch (controllers : List Ctrl) (entity : Entity) (batch : List PyVal) : List PyVal :=
  match entity.sample with
  | .error _ => batch
  | .ok s0 =>
    match process_sample controllers s0 with
    | .error _ => batch
    | .ok s => if pyTruthy s then batch ++ [s] else batch

/-- One pass of the worker loop DataSource.async_add_to_sample_queue,
lines 104-114: returns the sample pushed to the sample queue, or Option.none
when the sample is dropped (falsy result or swallowed exception). -/
def async_add_to_sample_queue_step (controllers : List Ctrl) (entity : Entity) :
    Option PyVal :=
  match entity.sample with
  | .error _ => Option.none
  | .ok s0 =>
    match process_sample controllers s0 with
    | .error _ => Option.none
    | .ok s => if pyTruthy s then some s else Option.none

/-- Lines 188-192 of DataSource.next: the memory check run at the end of every
loop iteration. mem_frac is the observed psutil fraction
(mem.percent/100.0); when it exceeds max_mem_percent, `del entity.data`
removes the raw-data attribute of the entity grabbed at index idx, raising
AttributeError when the attribute is absent. -/
def evictStep (max_mem_percent : ℚ) (mem_frac : ℚ) (entities : List Entity) (idx : Nat) :
    Except String (List Entity) :=
  if max_mem_percent < mem_frac then
    match entities[idx]? with
    | some e =>
      match e.data with
      | some _ => .ok (entities.set idx { e with data := Option.none })
      | Option.none => .error "AttributeError: data"
    | Option.none => .error "IndexError: list index out of range"
  else .ok entities

/- The DataSource object state (constructor, lines 40-90). The Python
   attribute _entities is the field `entities`; list_pointer is the cyclic
   cursor. Fields irrelevant to control flow are kept so that DataSource.split
   sharing (copy.copy on line 229) is observable. -/
structure DataSource where
  retrieval : Option PyVal
  controllers : List Ctrl
  prefilters : List (Entity → Bool)
  entities : List Entity
  batch_size : Nat
  list_pointer : Nat
  timeout : Option ℚ
  workers : Nat
  max_mem_percent : ℚ
  verbosity : Nat
  convert_batch_to_np : Bool

/-- Outcome of the batch loop of DataSource.next: the final (mutated) entity
list and cursor, plus either the full batch or the exception that escaped the
loop. In Python an exception propagates to the caller while mutations to
self persist, so the state components are meaningful in the error case too. -/
structure LoopResult where
  entities : List Entity
  list_pointer : Nat
  result : Except String (List PyVal)
deriving DecidableEq

/-- The while-loop of DataSource.next, lines 166-192, single-worker path.
Each iteration: grab self._entities[self.list_pointer] (IndexError when out of
range, line 167, uncaught); run the try-block (stepBatch); increment the
cursor (line 180, outside the try); on wraparound line 186 calls the bare name
reset_queue(), which is not defined at module level, so Python raises
NameError (the method is self.reset_queue; the bare call is the code as
written); finally run the memory check (evictStep). fuel bounds the recursion
structurally; DataSource.next passes enough fuel that the zero case is
unreachable, because every iteration increments the cursor and the loop raises
before the cursor can pass the end of the list. -/
def nextLoop (mem_frac : Nat → ℚ) (controllers : List Ctrl) (bs : Nat)
    (max_mem_percent : ℚ) :
    List Entity → Nat → List PyVal → Nat → Nat → LoopResult
  | entities, pointer, _batch, _k, 0 =>
      ⟨entities, pointer, .error "unreachable: fuel exhausted"⟩
  | entities, pointer, batch, k, fuel+1 =>
    if bs ≤ batch.length then ⟨entities, pointer, .ok batch⟩
    else
      match entities[pointer]? with
      | Option.none => ⟨entities, pointer, .error "IndexError: list index out of range"⟩
      | some entity =>
        if entities.length ≤ pointer + 1 then
          ⟨entities, pointer + 1, .error "NameError: global name reset_queue is not defined"⟩
        else
          match evictStep max_mem_percent (mem_frac k) entities pointer with
          | .error msg => ⟨entities, pointer + 1, .error msg⟩
          | .ok entities' =>
            nextLoop mem_frac controllers bs max_mem_percent entities' (pointer + 1)
              (stepBatch controllers entity batch) (k + 1) fuel

/-- data, labels = zip(*batch) on line 194: transposes a batch of (data,
label) pairs into two parallel tuples. With an empty batch the unpacking
raises ValueError; with a non-tuple element zip raises TypeError. -/
def transposeBatch (batch : List PyVal) : Except String (List PyVal × List PyVal) :=
  if batch.isEmpty then .error "ValueError: need more than 0 values to unpack"
  else if batch.all PyVal.isPair then .ok (batch.map pyFst, batch.map pySnd)
  else .error "TypeError: zip argument is not an iterable of pairs"

structure NextResult where
  ds : DataSource
  result : Except String (List PyVal × List PyVal)

/-- DataSource.next, lines 155-198, single-worker path (workers == 1).
batch_size_arg models the optional batch_size argument (line 164). The
returned ds carries the mutations to self._entities and self.list_pointer. -/
def DataSource.next (mem_frac : Nat → ℚ) (ds : DataSource)
    (batch_size_arg : Option Nat) : NextResult :=
  let bs := batch_size_arg.getD ds.batch_size
  let fuel := ds.entities.length - ds.list_pointer + 1
  let r := nextLoop mem_frac ds.controllers bs ds.max_mem_percent
      ds.entities ds.list_pointer [] 0 fuel
  { ds := { ds with entities := r.entities, list_pointer := r.list_pointer },
    result := r.result.bind transposeBatch }

/-- DataSource.reset_queue, lines 135-138: shuffle the entity list and reset
the cursor to 0. The shuffle permutation is an environment input. -/
def reset_queue (shuffle : List Entity → List Entity) (entities : List Entity) :
    List Entity × Nat :=
  (shuffle entities, 0)

/- State of the producer process running DataSource.async_fill_queue:
   the entity list and cursor as seen by the producer, the sequence of
   entities pushed into the entity queue so far, the number of times the
   loop guard sample_queue.full() has been evaluated, and the number of
   reshuffles (epochs) so far. -/
structure FillerState where
  entities : List Entity
  list_pointer : Nat
  pushed : List Entity
  checks : Nat
  epochs : Nat
deriving DecidableEq

inductive FillerOutcome where
  | terminated (st : FillerState)
  | running (st : FillerState)
  | errored (st : FillerState)
deriving DecidableEq

def FillerOutcome.isTerminated : FillerOutcome → Bool
  | .terminated _ => true
  | _ => false

/-- DataSource.async_fill_queue, lines 92-97:
while not self.sample_queue.full():
    self.entity_queue.put(self._entities[self.list_pointer])
    self.list_pointer += 1
    if self.list_pointer >= len(self._entities): self.reset_queue()
full k is the value the guard observes at its k-th evaluation (the sample
queue is filled concurrently by the workers); sigma e is the shuffle
permutation used by the e-th reset_queue call. fuel bounds the unrolling:
.running means the loop is still going after fuel iterations. -/
def async_fill_queue (full : Nat → Bool) (σ : Nat → List Entity → List Entity) :
    FillerState → Nat → FillerOutcome
  | st, 0 => .running st
  | st, fuel+1 =>
    if full st.checks then .terminated st
    else
      match st.entities[st.list_pointer]? with
      | Option.none => .errored st
      | some e =>
        let st1 : FillerState :=
          { st with pushed := st.pushed ++ [e], list_pointer := st.list_pointer + 1,
                    checks := st.checks + 1 }
        let st2 : FillerState :=
          if st1.entities.length ≤ st1.list_pointer then
            { st1 with entities := (reset_queue (σ st.epochs) st1.entities).1,
                       list_pointer := (reset_queue (σ st.epochs) st1.entities).2,
                       epochs := st.epochs + 1 }
          else st1
        async_fill_queue full σ st2 fuel

/-- DataSource.__prefilter, lines 118-133: each prefilter is applied in
declared order; in Python 2 filter returns a list, so every stage is
materialized (tqdm is an identity wrapper over the sequence). -/
def prefilter (prefilters : List (Entity → Bool)) (entities : List Entity) : List Entity :=
  prefilters.foldl (fun es pf => es.filter pf) entities

def idsOf (ds : DataSource) : List Int := ds.entities.map (fun e => e.unique_id)

/-- DataSource.filter_ids, lines 200-209: keep the entities whose unique_id is
in the given collection (set membership equals list membership). -/
def filter_ids (ds : DataSource) (id_list : List Int) : DataSource :=
  { ds with entities := ds.entities.filter (fun e => id_list.contains e.unique_id) }

/-- DataSource.save_ids, lines 211-215: the text written to the file, a
newline-joined sequence of str(unique_id). -/
def save_ids (ds : DataSource) : String :=
  String.intercalate "\n" (ds.entities.map (fun e => toString e.unique_id))

/-- Python int() applied to a rational: truncation toward zero. -/
def pyInt (q : ℚ) : Int := q.num.tdiv q.den

/-- Python slice index semantics for a[:b] and a[b:]: a negative b counts from
the end; out-of-range values clamp. -/
def pySliceIndex (len : Nat) (b : Int) : Nat :=
  if b < 0 then (b + len).toNat else min b.toNat len

/-- DataSource.split, lines 217-232:
break_off = int(len(ds1._entities)*split_percent); shuffle(ds1._entities);
ds2 = copy.copy(ds1); ds2._entities = ds1._entities[break_off:];
ds1._entities = ds1._entities[:break_off]; return ds1, ds2.
The first component is the input object with its entity list truncated; the
second is a shallow copy sharing every other attribute. -/
def DataSource.split (σ : List Entity → List Entity) (ds1 : DataSource)
    (split_percent : ℚ) : DataSource × DataSource :=
  let break_off : Int := pyInt ((ds1.entities.length : ℚ) * split_percent)
  let shuffled := σ ds1.entities
  let k := pySliceIndex shuffled.length break_off
  ({ ds1 with entities := shuffled.take k },
   { ds1 with entities := shuffled.drop k })

/-- Claim C4 read literally: a controller returning the boolean value True
leaves the sample unchanged, any other returned value replaces the sample, and
a returned boolean False rejects (Option.none), short-circuiting. This is the
claim text, for comparison against process_sample. -/
def processSampleClaimStrict (controllers : List Ctrl) (sample : PyVal) :
    Except String (Option PyVal) :=
  match controllers with
  | [] => .ok (some sample)
  | c :: rest =>
    match c sample with
    | .error e => .error e
    | .ok (.bool true) => processSampleClaimStrict rest sample
    | .ok (.bool false) => .ok Option.none
    | .ok v => processSampleClaimStrict rest v

/-- Claim C4 as amended to match the code: a returned value that compares
equal (Python ==) to True keeps the sample, any other returned value replaces
it, and whenever the updated sample compares equal to False the sample is
rejected immediately. -/
def processSampleAmended (controllers : List Ctrl) (sample : PyVal) :
    Except String (Option PyVal) :=
  match controllers with
  | [] => .ok (some sample)
  | c :: rest =>
    match c sample with
    | .error e => .error e
    | .ok tmp =>
      let sample' := if pyEq tmp (.bool true) then sample else tmp
      if pyEq sample' (.bool false) then .ok Option.none
      else processSampleAmended rest sample'

/- ------------------------------------------------------------------ -/
/- Helper lemmas                                                      -/
/- ------------------------------------------------------------------ -/

lemma pyEq_bool_false_not_truthy {s : PyVal} (h : pyEq s (.bool false) = true) :
    pyTruthy s = false := by
  cases s with
  | bool b => simp [pyEq] at h; simp [pyTruthy, h]
  | int n => simp [pyEq] at h; simp [pyTruthy, h]
  | pair a b => simp [pyEq] at h
  | none => simp [pyEq] at h

lemma stepBatch_length_le (controllers : List Ctrl) (entity : Entity)
    (batch : List PyVal) : (stepBatch controllers entity batch).length ≤ batch.length + 1 := by
  unfold stepBatch
  cases hs : entity.sample with
  | error e => simp
  | ok s0 =>
    cases hp : process_sample controllers s0 with
    | error e => simp [hp]
    | ok s =>
      by_cases h : pyTruthy s = true
      · simp [hp, h]
      · simp [hp, h]

/- ------------------------------------------------------------------ -/
/- C3: the prefilter stage                                            -/
/- ------------------------------------------------------------------ -/

/-- Claim C3: prefilter applies each predicate in declared order,
replacing the sequence with exactly the entities satisfying every predicate,
and the result is a materialized list (it is a List, ordered as a sublist of
the input, supporting length and random access); applying the stages one at a
time (in order) equals the whole stage. -/
theorem prefilter_applies_in_order_materialized
    (prefilters : List (Entity → Bool)) (entities : List Entity) :
    prefilter prefilters entities
      = entities.filter (fun e => prefilters.all (fun pf => pf e))
    ∧ (∀ pf rest, prefilter (pf :: rest) entities
        = prefilter rest (entities.filter pf))
    ∧ (prefilter prefilters entities).Sublist entities := by
  refine ⟨?_, ?_, ?_⟩
  · induction prefilters generalizing entities with
    | nil => simp [prefilter]
    | cons pf rest ih =>
      have h1 : prefilter (pf :: rest) entities = prefilter rest (entities.filter pf) := rfl
      rw [h1, ih, List.filter_filter]
      apply List.filter_congr
      intro a _
      rw [Bool.and_comm]
      simp
  · intro pf rest
    rfl
  · induction prefilters generalizing entities with
    | nil => simp [prefilter]
    | cons pf rest ih =>
      have h1 : prefilter (pf :: rest) entities = prefilter rest (entities.filter pf) := rfl
      rw [h1]
      exact (ih (entities.filter pf)).trans (List.filter_sublist entities)

/- ------------------------------------------------------------------ -/
/- C4: the controller chain                                           -/
/- ------------------------------------------------------------------ -/

def ctrlInt1 : Ctrl := fun _ => .ok (.int 1)

/-- Claim C4 counterexample: the claim says any returned value other than the
value True replaces the sample, but the code tests tmp == True under Python
equality, and 1 == True; so a controller returning the integer 1 leaves the
sample unchanged where the claim demands replacement. At sample 5 the claim
reading yields 1 while process_sample yields 5. -/
theorem controller_chain_claim_counterexample :
    processSampleClaimStrict [ctrlInt1] (.int 5) = .ok (some (.int 1))
    ∧ process_sample [ctrlInt1] (.int 5) = .ok (.int 5)
    ∧ (PyVal.int 5 ≠ PyVal.int 1) :=
  ⟨rfl, rfl, by decide⟩

lemma process_sample_cons (c : Ctrl) (rest : List Ctrl) (s : PyVal) :
    process_sample (c :: rest) s =
      match c s with
      | .error e => .error e
      | .ok tmp =>
        if pyEq (if pyEq tmp (.bool true) then s else tmp) (.bool false)
        then .ok (.bool false)
        else process_sample rest (if pyEq tmp (.bool true) then s else tmp) := rfl

lemma process_sample_append_reject (rest : List Ctrl) :
    ∀ (pre : List Ctrl) (t : PyVal), pre ≠ [] →
      process_sample pre t = .ok (.bool false) →
      process_sample (pre ++ rest) t = .ok (.bool false) := by
  intro pre
  induction pre with
  | nil => intro t h _; exact absurd rfl h
  | cons c cs ih =>
    intro t _ hrej
    show process_sample (c :: (cs ++ rest)) t = _
    cases hc : c t with
    | error e =>
      rw [process_sample_cons, hc] at hrej
      cases hrej
    | ok tmp =>
      simp only [process_sample_cons, hc] at hrej ⊢
      by_cases h : pyEq (if pyEq tmp (.bool true) then t else tmp) (.bool false) = true
      · rw [if_pos h]
      · rw [if_neg h] at hrej ⊢
        cases hcs : cs with
        | nil =>
          subst hcs
          simp only [process_sample, Except.ok.injEq] at hrej
          rw [hrej] at h
          simp [pyEq] at h
        | cons c2 cs2 =>
          subst hcs
          exact ih (if pyEq tmp (.bool true) then t else tmp) (by simp) hrej

/-- Claim C4 as amended: the chain is applied in order; a controller returning
a value that compares equal to True under Python == (True, or the integer 1)
leaves the sample unchanged, any other returned value replaces the sample, and
whenever the updated sample compares equal to False (False, or the integer 0)
the sample is rejected immediately; rejection short-circuits: once a non-empty
prefix of the chain rejects, the remaining controllers never change the
outcome. -/
theorem process_sample_chain_amended (controllers : List Ctrl) (s : PyVal) :
    process_sample controllers s
      = (processSampleAmended controllers s).map (fun o => o.getD (.bool false))
    ∧ (∀ (pre rest : List Ctrl) (t : PyVal), pre ≠ [] →
        process_sample pre t = .ok (.bool false) →
        process_sample (pre ++ rest) t = .ok (.bool false)) := by
  constructor
  · induction controllers generalizing s with
    | nil => simp [process_sample, processSampleAmended, Except.map]
    | cons c cs ih =>
      show process_sample (c :: cs) s = _
      rw [process_sample, processSampleAmended]
      cases c s with
      | error e => simp [Except.map]
      | ok tmp =>
        by_cases h : pyEq (if pyEq tmp (.bool true) then s else tmp) (.bool false) = true
        · simp [h, Except.map]
        · simp only [h]
          simp only [Bool.not_eq_true] at h
          simp [h, ih]
  · exact fun pre rest t => process_sample_append_reject rest pre t

def ctrlTrue : Ctrl := fun _ => .ok (.bool true)

def ctrlReject : Ctrl := fun _ => .ok (.bool false)

/-- Witness for the amended C4 theorem at concrete inputs. -/
theorem process_sample_chain_amended_witness :
    process_sample [ctrlTrue] (.int 7)
      = (processSampleAmended [ctrlTrue] (.int 7)).map (fun o => o.getD (.bool false))
    ∧ process_sample ([ctrlReject] ++ [ctrlTrue]) (.int 7) = .ok (.bool false) :=
  ⟨(process_sample_chain_amended [ctrlTrue] (.int 7)).1,
   (process_sample_chain_amended [] (.int 0)).2 [ctrlReject] [ctrlTrue] (.int 7)
     (by simp) rfl⟩

/- ------------------------------------------------------------------ -/
/- C9: falsy samples never enter a batch                              -/
/- ------------------------------------------------------------------ -/

/-- Claim C9: a sample comparing equal to False (including the integer 0, not
only the boolean) is rejected by process_sample even when every controller
accepts it (returns True), and both the single-worker batch loop body and the
worker pool step drop it: the batch is unchanged and nothing is enqueued. -/
theorem falsy_sample_never_enters_batch (controllers : List Ctrl) (s : PyVal)
    (hf : pyEq s (.bool false) = true)
    (hacc : ∀ c ∈ controllers, c s = .ok (.bool true)) :
    (∃ r, process_sample controllers s = .ok r ∧ pyTruthy r = false)
    ∧ (∀ (e : Entity) (batch : List PyVal), e.sample = .ok s →
        stepBatch controllers e batch = batch)
    ∧ (∀ e : Entity, e.sample = .ok s →
        async_add_to_sample_queue_step controllers e = Option.none)
    ∧ pyEq (.int 0) (.bool false) = true := by
  have hmain : ∃ r, process_sample controllers s = .ok r ∧ pyTruthy r = false := by
    cases controllers with
    | nil => exact ⟨s, rfl, pyEq_bool_false_not_truthy hf⟩
    | cons c cs =>
      refine ⟨.bool false, ?_, rfl⟩
      rw [process_sample, hacc c (by simp)]
      simp [pyEq, hf]
  obtain ⟨r, hr, hrt⟩ := hmain
  refine ⟨⟨r, hr, hrt⟩, ?_, ?_, by decide⟩
  · intro e batch he
    simp only [stepBatch, he]
    simp only [hr]
    simp [hrt]
  · intro e he
    simp only [async_add_to_sample_queue_step, he]
    simp only [hr]
    simp [hrt]

/-- Witness for C9: the integer sample 0 with a chain of one accepting
controller is dropped by the batch loop body and by the worker step. -/
theorem falsy_sample_never_enters_batch_witness :
    stepBatch [ctrlTrue] ⟨3, .ok (.int 0), Option.none⟩ [] = []
    ∧ async_add_to_sample_queue_step [ctrlTrue] ⟨3, .ok (.int 0), Option.none⟩
        = Option.none :=
  ⟨(falsy_sample_never_enters_batch [ctrlTrue] (.int 0) (by decide)
      (by intro c hc; rw [List.mem_singleton] at hc; subst hc; rfl)).2.1
      ⟨3, .ok (.int 0), Option.none⟩ [] rfl,
   (falsy_sample_never_enters_batch [ctrlTrue] (.int 0) (by decide)
      (by intro c hc; rw [List.mem_singleton] at hc; subst hc; rfl)).2.2.1
      ⟨3, .ok (.int 0), Option.none⟩ rfl⟩

/- ------------------------------------------------------------------ -/
/- C1: next() returns a full batch or raises                          -/
/- ------------------------------------------------------------------ -/

lemma nextLoop_ok_length (mem_frac : Nat → ℚ) (controllers : List Ctrl) (bs : Nat)
    (mm : ℚ) :
    ∀ (fuel : Nat) (entities : List Entity) (pointer : Nat) (batch : List PyVal)
      (k : Nat) (b : List PyVal),
      batch.length ≤ bs →
      (nextLoop mem_frac controllers bs mm entities pointer batch k fuel).result = .ok b →
      b.length = bs := by
  intro fuel
  induction fuel with
  | zero =>
    intro entities pointer batch k b hle h
    simp [nextLoop] at h
  | succ n ih =>
    intro entities pointer batch k b hle h
    simp only [nextLoop] at h
    by_cases hbs : bs ≤ batch.length
    · rw [if_pos hbs] at h
      simp only [Except.ok.injEq] at h
      subst h
      omega
    · rw [if_neg hbs] at h
      cases hx : entities[pointer]? with
      | none => simp [hx] at h
      | some entity =>
        simp only [hx] at h
        by_cases hw : entities.length ≤ pointer + 1
        · simp [hw] at h
        · rw [if_neg hw] at h
          cases hev : evictStep mm (mem_frac k) entities pointer with
          | error msg => simp [hev] at h
          | ok ents =>
            simp only [hev] at h
            exact ih ents (pointer + 1) (stepBatch controllers entity batch) (k + 1) b
              (by have hsb := stepBatch_length_le controllers entity batch; omega) h

lemma transposeBatch_ok_lengths (batch : List PyVal) (d l : List PyVal)
    (h : transposeBatch batch = .ok (d, l)) :
    d.length = batch.length ∧ l.length = batch.length := by
  unfold transposeBatch at h
  by_cases he : batch.isEmpty = true
  · simp [he] at h
  · simp only [he, Bool.false_eq_true, if_false] at h
    by_cases ha : batch.all PyVal.isPair = true
    · simp only [ha, if_true, Except.ok.injEq, Prod.mk.injEq] at h
      obtain ⟨hd, hl⟩ := h
      subst hd
      subst hl
      simp
    · simp [ha] at h

/-- Claim C1: in single-worker mode, whenever DataSource.next returns a value
(rather than raising), the returned data and label sequences both have length
exactly batch_size (the optional argument when given, the configured constant
otherwise); a short batch is impossible. -/
theorem next_full_batch (mem_frac : Nat → ℚ) (ds : DataSource)
    (batch_size_arg : Option Nat) (d l : List PyVal)
    (h : (DataSource.next mem_frac ds batch_size_arg).result = .ok (d, l)) :
    d.length = batch_size_arg.getD ds.batch_size
    ∧ l.length = batch_size_arg.getD ds.batch_size := by
  simp only [DataSource.next] at h
  cases hr : (nextLoop mem_frac ds.controllers (batch_size_arg.getD ds.batch_size)
      ds.max_mem_percent ds.entities ds.list_pointer [] 0
      (ds.entities.length - ds.list_pointer + 1)).result with
  | error e => rw [hr] at h; cases h
  | ok batch =>
    rw [hr] at h
    have hb := nextLoop_ok_length mem_frac ds.controllers
      (batch_size_arg.getD ds.batch_size) ds.max_mem_percent
      (ds.entities.length - ds.list_pointer + 1) ds.entities ds.list_pointer [] 0 batch
      (by simp) hr
    have ht := transposeBatch_ok_lengths batch d l h
    omega

def memZero : Nat → ℚ := fun _ => 0

def entPair (i : Int) : Entity := ⟨i, .ok (.pair (.int i) (.int i)), some (.int 0)⟩

def dsW1 : DataSource :=
  { retrieval := Option.none, controllers := [], prefilters := [],
    entities := [entPair 0, entPair 1, entPair 2], batch_size := 2, list_pointer := 0,
    timeout := Option.none, workers := 1, max_mem_percent := 1, verbosity := 0,
    convert_batch_to_np := true }

/-- Witness for C1: a store of three entities with batch_size 2 yields a batch
of exactly two data values and two labels. -/
theorem next_full_batch_witness :
    ([PyVal.int 0, PyVal.int 1] : List PyVal).length = 2
    ∧ ([PyVal.int 0, PyVal.int 1] : List PyVal).length = 2 :=
  next_full_batch memZero dsW1 Option.none [PyVal.int 0, PyVal.int 1]
    [PyVal.int 0, PyVal.int 1] rfl

/- ------------------------------------------------------------------ -/
/- C2: the concrete 10-entity scenario                                -/
/- ------------------------------------------------------------------ -/

def dsC2 : DataSource :=
  { retrieval := Option.none, controllers := [], prefilters := [],
    entities := [entPair 0, entPair 1, entPair 2, entPair 3, entPair 4,
                 entPair 5, entPair 6, entPair 7, entPair 8, entPair 9],
    batch_size := 4, list_pointer := 0,
    timeout := Option.none, workers := 1, max_mem_percent := 1, verbosity := 0,
    convert_batch_to_np := true }

/-- Claim C2 evaluated on the code: with 10 entities of ids 0..9, batch_size 4,
one worker and no controllers or prefilters, the first two next() calls return
4 samples each, drawn at strictly increasing cursor positions (so ids are a
subset of 0..9 with no repeats within a batch); but the third call, after
consuming the 10th sample, hits the wraparound branch, and line 186 of
datasource.py calls the bare undefined name reset_queue(), so the call raises
NameError instead of reshuffling and completing the batch: the entity list is
left unshuffled and no third batch is produced, contrary to the claim. -/
theorem scenario_ten_entities_third_next_raises :
    (DataSource.next memZero dsC2 Option.none).result
        = .ok ([.int 0, .int 1, .int 2, .int 3], [.int 0, .int 1, .int 2, .int 3])
    ∧ (DataSource.next memZero dsC2 Option.none).ds.list_pointer = 4
    ∧ (DataSource.next memZero (DataSource.next memZero dsC2 Option.none).ds
        Option.none).result
        = .ok ([.int 4, .int 5, .int 6, .int 7], [.int 4, .int 5, .int 6, .int 7])
    ∧ (DataSource.next memZero (DataSource.next memZero dsC2 Option.none).ds
        Option.none).ds.list_pointer = 8
    ∧ (DataSource.next memZero (DataSource.next memZero (DataSource.next memZero dsC2
        Option.none).ds Option.none).ds Option.none).result
        = .error "NameError: global name reset_queue is not defined"
    ∧ (DataSource.next memZero (DataSource.next memZero (DataSource.next memZero dsC2
        Option.none).ds Option.none).ds Option.none).ds.list_pointer = 10
    ∧ (DataSource.next memZero (DataSource.next memZero (DataSource.next memZero dsC2
        Option.none).ds Option.none).ds Option.none).ds.entities = dsC2.entities :=
  ⟨rfl, rfl, rfl, rfl, rfl, rfl, rfl⟩

/- ------------------------------------------------------------------ -/
/- C6: the memory pressure policy                                     -/
/- ------------------------------------------------------------------ -/

def memOver : Nat → ℚ := fun _ => 2

def entD (i : Int) : Entity := ⟨i, .ok (.pair (.int i) (.int i)), some (.int 99)⟩

def dsC6 : DataSource :=
  { retrieval := Option.none, controllers := [ctrlReject], prefilters := [],
    entities := [entD 0, entD 1], batch_size := 1, list_pointer := 0,
    timeout := Option.none, workers := 1, max_mem_percent := 1, verbosity := 0,
    convert_batch_to_np := true }

/-- Claim C6 counterexample: the claim says the eviction runs only after a
sample is accepted into a batch, but the check on lines 188-192 runs at the
end of every loop iteration. Here every sample is rejected by the controller
chain (process_sample returns False), no sample is ever accepted, the call
raises without producing a batch, and yet the raw-data field of entity 0 has
been released because the memory reading exceeded max_mem_percent. -/
theorem memory_eviction_claim_counterexample :
    process_sample [ctrlReject] (.pair (.int 0) (.int 0)) = .ok (.bool false)
    ∧ (DataSource.next memOver dsC6 Option.none).result
        = .error "NameError: global name reset_queue is not defined"
    ∧ (DataSource.next memOver dsC6 Option.none).ds.entities
        = [{ entD 0 with data := Option.none }, entD 1]
    ∧ (entD 0).data = some (.int 99) :=
  ⟨rfl, rfl, rfl, rfl⟩

/-- Claim C6 as amended: the memory policy runs at the end of every iteration
of the single-worker batch loop, whether or not the sample was accepted: when
the observed memory fraction exceeds max_mem_percent the raw-data field of the
just-sampled entity is released (the batch is untouched), and at or below the
threshold it is retained; the loop step applies evictStep to the entity at the
cursor independently of the controller outcome. -/
theorem memory_eviction_amended (max_mem m : ℚ) (entities : List Entity) (idx : Nat)
    (e : Entity) (he : entities[idx]? = some e) :
    (max_mem < m → ∀ v, e.data = some v →
       evictStep max_mem m entities idx
         = .ok (entities.set idx { e with data := Option.none }))
    ∧ (¬ max_mem < m → evictStep max_mem m entities idx = .ok entities)
    ∧ (∀ (mem_frac : Nat → ℚ) (controllers : List Ctrl) (bs : Nat)
         (batch : List PyVal) (k fuel : Nat) (entities' : List Entity),
        ¬ bs ≤ batch.length → ¬ entities.length ≤ idx + 1 →
        evictStep max_mem (mem_frac k) entities idx = .ok entities' →
        nextLoop mem_frac controllers bs max_mem entities idx batch k (fuel + 1)
          = nextLoop mem_frac controllers bs max_mem entities' (idx + 1)
              (stepBatch controllers e batch) (k + 1) fuel) := by
  refine ⟨?_, ?_, ?_⟩
  · intro hlt v hv
    simp [evictStep, hlt, he, hv]
  · intro hn
    simp [evictStep, hn]
  · intro mem_frac controllers bs batch k fuel entities' hbs hw hev
    simp only [nextLoop]
    rw [if_neg hbs]
    simp only [he]
    rw [if_neg hw]
    simp only [hev]

/-- Witness for the amended C6 theorem at concrete inputs: over the threshold
the entity data field is released even though the controller rejects the
sample; at the threshold or below it is retained; and the loop step equation
holds for a concrete iteration. -/
theorem memory_eviction_amended_witness :
    evictStep 1 2 [entD 0, entD 1] 0
        = .ok [{ entD 0 with data := Option.none }, entD 1]
    ∧ evictStep 1 0 [entD 0, entD 1] 0 = .ok [entD 0, entD 1]
    ∧ nextLoop memOver [ctrlReject] 5 1 [entD 0, entD 1] 0 [] 0 (3 + 1)
        = nextLoop memOver [ctrlReject] 5 1
            [{ entD 0 with data := Option.none }, entD 1] 1
            (stepBatch [ctrlReject] (entD 0) []) 1 3 :=
  ⟨(memory_eviction_amended 1 2 [entD 0, entD 1] 0 (entD 0) rfl).1 (by decide)
      (.int 99) rfl,
   (memory_eviction_amended 1 0 [entD 0, entD 1] 0 (entD 0) rfl).2.1 (by decide),
   (memory_eviction_amended 1 (memOver 0) [entD 0, entD 1] 0 (entD 0) rfl).2.2 memOver
      [ctrlReject] 5 [] 0 3 [{ entD 0 with data := Option.none }, entD 1]
      (by decide) (by decide) rfl⟩

/- ------------------------------------------------------------------ -/
/- C5: the entity queue filler                                        -/
/- ------------------------------------------------------------------ -/

def fillerStart : FillerState :=
  { entities := [entPair 0], list_pointer := 0, pushed := [], checks := 0, epochs := 0 }

/-- Claim C5 counterexample: the claim says the filler never terminates on its
own, but the loop guard on line 93 is `while not self.sample_queue.full()`, so
as soon as the guard observes a full sample queue the loop exits and the
producer process ends. With the very first observation full, the filler
terminates immediately, having pushed nothing. -/
theorem filler_never_terminates_counterexample :
    async_fill_queue (fun _ => true) (fun _ l => l) fillerStart 1
      = .terminated fillerStart
    ∧ fillerStart.pushed = [] :=
  ⟨rfl, rfl⟩

/-- Claim C5 as amended: the filler keeps pushing the entity at the cursor and
advancing (reshuffling via reset_queue and resetting the cursor to 0 on
wraparound) for as long as the loop guard observes the sample queue not full
-- in particular it never terminates if the queue is never observed full --
but it terminates as soon as a guard evaluation observes the sample queue
full. -/
theorem async_fill_queue_amended (full : Nat → Bool)
    (σ : Nat → List Entity → List Entity) :
    ((∀ k, full k = false) → ∀ (st : FillerState) (fuel : Nat),
        (async_fill_queue full σ st fuel).isTerminated = false)
    ∧ (∀ (st : FillerState) (fuel : Nat), full st.checks = true →
        async_fill_queue full σ st (fuel + 1) = .terminated st)
    ∧ (∀ (st : FillerState) (fuel : Nat) (e : Entity), full st.checks = false →
        st.entities[st.list_pointer]? = some e →
        st.list_pointer + 1 < st.entities.length →
        async_fill_queue full σ st (fuel + 1)
          = async_fill_queue full σ
              { st with pushed := st.pushed ++ [e],
                        list_pointer := st.list_pointer + 1,
                        checks := st.checks + 1 } fuel)
    ∧ (∀ (st : FillerState) (fuel : Nat) (e : Entity), full st.checks = false →
        st.entities[st.list_pointer]? = some e →
        st.entities.length ≤ st.list_pointer + 1 →
        async_fill_queue full σ st (fuel + 1)
          = async_fill_queue full σ
              { st with entities := σ st.epochs st.entities, list_pointer := 0,
                        pushed := st.pushed ++ [e], checks := st.checks + 1,
                        epochs := st.epochs + 1 } fuel) := by
  refine ⟨?_, ?_, ?_, ?_⟩
  · intro hfull st fuel
    induction fuel generalizing st with
    | zero => simp [async_fill_queue, FillerOutcome.isTerminated]
    | succ n ih =>
      rw [async_fill_queue, hfull st.checks]
      simp only [Bool.false_eq_true, if_false]
      cases hx : st.entities[st.list_pointer]? with
      | none => simp [hx, FillerOutcome.isTerminated]
      | some e =>
        simp only [hx]
        exact ih _
  · intro st fuel h
    rw [async_fill_queue, h]
    simp
  · intro st fuel e hfull hx hnw
    have hcond : ¬ st.entities.length ≤ st.list_pointer + 1 := by omega
    simp [async_fill_queue, hfull, hx, hcond]
  · intro st fuel e hfull hx hw
    simp [async_fill_queue, hfull, hx, hw, reset_queue]

def fullNever : Nat → Bool := fun _ => false

def fullAlways : Nat → Bool := fun _ => true

def sigmaId : Nat → List Entity → List Entity := fun _ l => l

/-- Witness for the amended C5 theorem: with the guard never observing a full
queue the filler is still running after three iterations; with the guard
observing full it terminates at once. -/
theorem async_fill_queue_amended_witness :
    (async_fill_queue fullNever sigmaId fillerStart 3).isTerminated = false
    ∧ async_fill_queue fullAlways sigmaId fillerStart 4 = .terminated fillerStart :=
  ⟨(async_fill_queue_amended fullNever sigmaId).1 (fun _ => rfl) fillerStart 3,
   (async_fill_queue_amended fullAlways sigmaId).2.1 fillerStart 3 rfl⟩

/- ------------------------------------------------------------------ -/
/- C7: split partitions the store                                     -/
/- ------------------------------------------------------------------ -/

lemma pyInt_eq_floor {q : ℚ} (h : 0 ≤ q) : pyInt q = ⌊q⌋ := by
  unfold pyInt
  rw [Int.tdiv_eq_ediv (Rat.num_nonneg.mpr h) (by positivity), Rat.floor_def]

lemma floor_round_abs_le (x : ℚ) : |(⌊x⌋ : ℤ) - round x| ≤ 1 := by
  rw [round_eq]
  have h1 : ⌊x⌋ ≤ ⌊x + 1/2⌋ := Int.floor_mono (by linarith)
  have h2 : ⌊x + 1/2⌋ ≤ ⌊x⌋ + 1 := by
    have h3 := Int.floor_mono (α := ℚ) (a := x + 1/2) (b := x + 1) (by linarith)
    simpa using h3
  rw [abs_le]
  omega

/-- Claim C7: for a non-empty store and a percentage p in [0,1], split returns
two stores whose entity lists together are a permutation of the original list
(no entity duplicated, none dropped), disjoint when the original entities are
distinct, the first of size exactly floor(len * p), which is within 1 of
round(len * p). The shuffle is an environment permutation. -/
theorem split_disjoint_exhaustive (ds : DataSource) (p : ℚ)
    (σ : List Entity → List Entity)
    (hσ : ∀ l, (σ l).Perm l) (hne : ds.entities ≠ []) (h0 : 0 ≤ p) (h1 : p ≤ 1) :
    ((DataSource.split σ ds p).1.entities
        ++ (DataSource.split σ ds p).2.entities).Perm ds.entities
    ∧ (ds.entities.Nodup →
        (DataSource.split σ ds p).1.entities.Disjoint
          (DataSource.split σ ds p).2.entities)
    ∧ ((DataSource.split σ ds p).1.entities.length : ℤ)
        = ⌊(ds.entities.length : ℚ) * p⌋
    ∧ |((DataSource.split σ ds p).1.entities.length : ℤ)
        - round ((ds.entities.length : ℚ) * p)| ≤ 1 := by
  have hlen : (σ ds.entities).length = ds.entities.length := (hσ ds.entities).length_eq
  have hpy : pyInt ((ds.entities.length : ℚ) * p) = ⌊(ds.entities.length : ℚ) * p⌋ :=
    pyInt_eq_floor (by positivity)
  have hb0 : (0:ℤ) ≤ ⌊(ds.entities.length : ℚ) * p⌋ :=
    Int.floor_nonneg.mpr (by positivity)
  have hfle : ⌊(ds.entities.length : ℚ) * p⌋ ≤ (ds.entities.length : ℤ) := by
    calc ⌊(ds.entities.length : ℚ) * p⌋ ≤ ⌊(ds.entities.length : ℚ)⌋ :=
          Int.floor_mono (mul_le_of_le_one_right (by positivity) h1)
      _ = (ds.entities.length : ℤ) := Int.floor_natCast _
  have hk : pySliceIndex (σ ds.entities).length (pyInt ((ds.entities.length : ℚ) * p))
      = (⌊(ds.entities.length : ℚ) * p⌋).toNat := by
    unfold pySliceIndex
    rw [hpy, if_neg (by omega), hlen]
    omega
  have hsplit1 : (DataSource.split σ ds p).1.entities
      = (σ ds.entities).take ((⌊(ds.entities.length : ℚ) * p⌋).toNat) := by
    simp only [DataSource.split, hk]
  have hsplit2 : (DataSource.split σ ds p).2.entities
      = (σ ds.entities).drop ((⌊(ds.entities.length : ℚ) * p⌋).toNat) := by
    simp only [DataSource.split, hk]
  have hlen1 : ((DataSource.split σ ds p).1.entities.length : ℤ)
      = ⌊(ds.entities.length : ℚ) * p⌋ := by
    rw [hsplit1]
    simp only [List.length_take, hlen]
    omega
  refine ⟨?_, ?_, hlen1, ?_⟩
  · rw [hsplit1, hsplit2, List.take_append_drop]
    exact hσ _
  · intro hnd
    have hnds : (σ ds.entities).Nodup := ((hσ ds.entities).nodup_iff).mpr hnd
    rw [← List.take_append_drop ((⌊(ds.entities.length : ℚ) * p⌋).toNat)
      (σ ds.entities)] at hnds
    rw [hsplit1, hsplit2]
    exact (List.nodup_append.mp hnds).2.2
  · rw [hlen1]
    exact floor_round_abs_le _

def dsC7 : DataSource :=
  { retrieval := Option.none, controllers := [], prefilters := [],
    entities := [entD 0, entD 1, entD 2, entD 3], batch_size := 2, list_pointer := 0,
    timeout := Option.none, workers := 1, max_mem_percent := 1, verbosity := 0,
    convert_batch_to_np := true }

/-- Witness for C7 on a concrete four-entity store split at one half. -/
theorem split_disjoint_exhaustive_witness :
    ((DataSource.split (fun l => l) dsC7 (1/2)).1.entities
        ++ (DataSource.split (fun l => l) dsC7 (1/2)).2.entities).Perm dsC7.entities
    ∧ (dsC7.entities.Nodup →
        (DataSource.split (fun l => l) dsC7 (1/2)).1.entities.Disjoint
          (DataSource.split (fun l => l) dsC7 (1/2)).2.entities)
    ∧ ((DataSource.split (fun l => l) dsC7 (1/2)).1.entities.length : ℤ)
        = ⌊(dsC7.entities.length : ℚ) * (1/2)⌋
    ∧ |((DataSource.split (fun l => l) dsC7 (1/2)).1.entities.length : ℤ)
        - round ((dsC7.entities.length : ℚ) * (1/2))| ≤ 1 :=
  split_disjoint_exhaustive dsC7 (1/2) (fun l => l) (fun l => List.Perm.refl l)
    (by decide) one_half_pos.le one_half_lt_one.le

/- ------------------------------------------------------------------ -/
/- C8: save_ids / filter_ids round trip                               -/
/- ------------------------------------------------------------------ -/

/-- Claim C8: save_ids writes the newline-joined sequence of the entity ids
(one id per line); filter_ids retains exactly the entities whose id is in the
given collection; consequently filtering a store with an equivalent id
population by the saved ids yields a store whose id set is exactly the saved
id set. -/
theorem save_ids_filter_ids_roundtrip (ds ds2 : DataSource)
    (heq : ∀ i : Int, i ∈ idsOf ds2 ↔ i ∈ idsOf ds) :
    save_ids ds = String.intercalate "\n" ((idsOf ds).map (fun i => toString i))
    ∧ (∀ e : Entity, e ∈ (filter_ids ds2 (idsOf ds)).entities
        ↔ e ∈ ds2.entities ∧ e.unique_id ∈ idsOf ds)
    ∧ (∀ i : Int, i ∈ idsOf (filter_ids ds2 (idsOf ds)) ↔ i ∈ idsOf ds) := by
  refine ⟨?_, ?_, ?_⟩
  · simp [save_ids, idsOf, List.map_map]
    rfl
  · intro e
    simp [filter_ids, List.mem_filter, List.elem_iff]
  · intro i
    constructor
    · intro hi
      simp only [idsOf, List.mem_map] at hi
      obtain ⟨e, he, hid⟩ := hi
      simp only [filter_ids, List.mem_filter] at he
      obtain ⟨_, hc⟩ := he
      subst hid
      exact List.elem_iff.mp hc
    · intro hi
      have hi2 := (heq i).mpr hi
      simp only [idsOf, List.mem_map] at hi2 ⊢
      obtain ⟨e, he, hid⟩ := hi2
      refine ⟨e, ?_, hid⟩
      simp only [filter_ids, List.mem_filter]
      refine ⟨he, ?_⟩
      subst hid
      simpa [idsOf] using hi

def dsA : DataSource :=
  { retrieval := Option.none, controllers := [], prefilters := [],
    entities := [entD 1, entD 2], batch_size := 1, list_pointer := 0,
    timeout := Option.none, workers := 1, max_mem_percent := 1, verbosity := 0,
    convert_batch_to_np := true }

def dsB : DataSource :=
  { retrieval := Option.none, controllers := [], prefilters := [],
    entities := [⟨2, .ok (.int 5), Option.none⟩, ⟨1, .ok (.int 6), Option.none⟩],
    batch_size := 3, list_pointer := 0,
    timeout := Option.none, workers := 1, max_mem_percent := 1, verbosity := 0,
    convert_batch_to_np := true }

/-- Witness for C8: a two-entity store saved, then an equivalent store (same
ids in a different order, different samples) filtered by the saved ids. -/
theorem save_ids_filter_ids_roundtrip_witness :
    save_ids dsA = String.intercalate "\n" ((idsOf dsA).map (fun i => toString i))
    ∧ (∀ e : Entity, e ∈ (filter_ids dsB (idsOf dsA)).entities
        ↔ e ∈ dsB.entities ∧ e.unique_id ∈ idsOf dsA)
    ∧ (∀ i : Int, i ∈ idsOf (filter_ids dsB (idsOf dsA)) ↔ i ∈ idsOf dsA) :=
  save_ids_filter_ids_roundtrip dsA dsB
    (by intro i; simp [idsOf, dsA, dsB, entD, or_comm])

/- ------------------------------------------------------------------ -/
/- C10: split aliases the configuration                               -/
/- ------------------------------------------------------------------ -/

lemma take_min_length {α : Type} (l : List α) (b : Nat) :
    l.take (min b l.length) = l.take b := by
  rcases le_or_lt b l.length with h | h
  · rw [min_eq_left h]
  · rw [min_eq_right h.le, List.take_length, List.take_of_length_le h.le]

lemma drop_min_length {α : Type} (l : List α) (b : Nat) :
    l.drop (min b l.length) = l.drop b := by
  rcases le_or_lt b l.length with h | h
  · rw [min_eq_left h]
  · rw [min_eq_right h.le, List.drop_length, List.drop_eq_nil_of_le h.le]

/-- Claim C10: for p at least 0, the first store returned by split is the
input object with its entity list replaced by the first floor(len * p)
entities of the shuffled list; the second is a shallow copy of the input, so
both returned stores agree with the input on every attribute other than
_entities (retrieval, controllers, prefilters, cursor, batch size, timeout,
workers, max_mem_percent, verbosity, numpy flag), and the two results differ
only in the _entities field. -/
theorem split_mutates_and_shares_attributes (ds : DataSource) (p : ℚ)
    (σ : List Entity → List Entity) (h0 : 0 ≤ p) :
    (DataSource.split σ ds p).1.entities
        = (σ ds.entities).take ((⌊(ds.entities.length : ℚ) * p⌋).toNat)
    ∧ (DataSource.split σ ds p).2.entities
        = (σ ds.entities).drop ((⌊(ds.entities.length : ℚ) * p⌋).toNat)
    ∧ (DataSource.split σ ds p).1
        = { ds with entities := (DataSource.split σ ds p).1.entities }
    ∧ (DataSource.split σ ds p).2
        = { (DataSource.split σ ds p).1 with
            entities := (DataSource.split σ ds p).2.entities } := by
  have hpy : pyInt ((ds.entities.length : ℚ) * p) = ⌊(ds.entities.length : ℚ) * p⌋ :=
    pyInt_eq_floor (by positivity)
  have hb0 : (0:ℤ) ≤ ⌊(ds.entities.length : ℚ) * p⌋ :=
    Int.floor_nonneg.mpr (by positivity)
  have hk : pySliceIndex (σ ds.entities).length (pyInt ((ds.entities.length : ℚ) * p))
      = min ((⌊(ds.entities.length : ℚ) * p⌋).toNat) (σ ds.entities).length := by
    unfold pySliceIndex
    rw [hpy, if_neg (by omega)]
  refine ⟨?_, ?_, ?_, ?_⟩
  · simp only [DataSource.split, hk, take_min_length]
  · simp only [DataSource.split, hk, drop_min_length]
  · simp only [DataSource.split]
  · simp only [DataSource.split]

/-- Witness for C10 on a concrete store with p = 1. -/
theorem split_mutates_and_shares_attributes_witness :
    (DataSource.split (fun l => l) dsC7 1).1.entities
        = ((fun (l : List Entity) => l) dsC7.entities).take
            ((⌊(dsC7.entities.length : ℚ) * 1⌋).toNat)
    ∧ (DataSource.split (fun l => l) dsC7 1).2.entities
        = ((fun (l : List Entity) => l) dsC7.entities).drop
            ((⌊(dsC7.entities.length : ℚ) * 1⌋).toNat)
    ∧ (DataSource.split (fun l => l) dsC7 1).1
        = { dsC7 with entities := (DataSource.split (fun l => l) dsC7 1).1.entities }
    ∧ (DataSource.split (fun l => l) dsC7 1).2
        = { (DataSource.split (fun l => l) dsC7 1).1 with
            entities := (DataSource.split (fun l => l) dsC7 1).2.entities } :=
  split_mutates_and_shares_attributes dsC7 1 (fun l => l) zero_le_one
